import Mathlib

/-
Verification of the dvr record/replay HTTP transport library.

The definitions below are a shallow embedding of the Go sources:
  - src/unnamed/part_006 (dvr.go): mode resolution, RoundTrip dispatch,
    CancelRequest, the RequestResponse data type;
  - src/replay.go: the default matcher, the replay scan, the replay-miss
    diagnostic, replaySetup version handling;
  - src/unnamed/part_004 (record.go): recordSetup and the record flow,
    including the obfuscation step;
  - src/unnamed/part_002 (obfuscate.go) is exercised only through the
    generic hook, so it needs no dedicated embedding.
Go pointers that may be nil are embedded as Option; byte slices as List Nat;
Go maps of type http.Header as canonical association lists
(List (String, List String)); a Go runtime panic (nil dereference) is an
explicit crash value; panicIfError with a non-nil error is an explicit
fatal value carrying the message.
-/

set_option maxRecDepth 4000

/-- Bytes of a body or of a file, one Nat (0..255) per byte. -/
abbrev Bytes := List Nat

/-- Go http.Header and http.Request.Trailer: a multimap from field name to the
list of values, embedded as a canonical association list.  reflect.DeepEqual
on two such maps is equality of the canonical lists. -/
abbrev Header := List (String × List String)

/-- Embedding of net/url.URL restricted to the fields the library reads:
Scheme, Opaque, Host, Path, RawQuery, Fragment and User.  The User field
(a pointer to url.Userinfo) is embedded as the rendered form of
User.String(), with none for a nil pointer.  The Opaque component is
spelled opaq here. -/
structure URL where
  scheme : String
  opaq : String
  host : String
  path : String
  rawQuery : String
  fragment : String
  user : Option String
deriving DecidableEq

/-- Embedding of net/http.Request restricted to the fields the library
reads: Method, URL (a pointer, hence Option), Header and Trailer.  The body
is buffered separately, as the library itself does. -/
structure Request where
  method : String
  url : Option URL
  header : Header
  trailer : Header
deriving DecidableEq

/-- Embedding of net/http.Response restricted to the fields the library
copies: the status code and the header.  The body bytes live next to it in
RequestResponse, as in the source. -/
structure Response where
  status : Nat
  header : Header
deriving DecidableEq

/-- Embedding of dvr.RequestResponse (src/unnamed/part_006, end of file).
Errors are embedded by their message.  UserData is an interface value used
by the default matcher purely as a nil / non-nil consumption marker, so it
is embedded as a Bool that is true once the marker was set. -/
structure RequestResponse where
  request : Option Request
  requestBody : Bytes
  requestBodyError : Option String
  response : Option Response
  responseBody : Bytes
  responseBodyError : Option String
  error : Option String
  userData : Bool
deriving DecidableEq

/-- Comparison chain of the default matcher (src/replay.go lines 57-99):
the successive early false returns on any disagreeing dimension, then the
consumption marking plus true answer of a full agreement. -/
def matcherCompare (l r : RequestResponse) (lreq rreq : Request) (lurl rurl : URL) :
    Option (Bool × Option RequestResponse) :=
  if lurl.scheme ≠ rurl.scheme then some (false, some r)
  else if lurl.opaq ≠ rurl.opaq then some (false, some r)
  else if lurl.host ≠ rurl.host then some (false, some r)
  else if lurl.path ≠ rurl.path then some (false, some r)
  else if lurl.rawQuery ≠ rurl.rawQuery then some (false, some r)
  else if lurl.fragment ≠ rurl.fragment then some (false, some r)
  else if lurl.user ≠ none ∧ rurl.user = none then some (false, some r)
  else if lurl.user = none ∧ rurl.user ≠ none then some (false, some r)
  else if lurl.user ≠ none ∧ lurl.user ≠ rurl.user then some (false, some r)
  else if l.requestBody ≠ r.requestBody then some (false, some r)
  else if lreq.header ≠ rreq.header then some (false, some r)
  else if lreq.trailer ≠ rreq.trailer then some (false, some r)
  else some (true, some { r with userData := true })

/-- Stage of the default matcher after the nil guards (src/replay.go lines
54-83): dereference the two URLs.  A nil left URL answers false; a nil
right URL under a present left URL is the nil dereference of the first
comparison, hence none. -/
def matcherURLs (l r : RequestResponse) (lreq rreq : Request) :
    Option (Bool × Option RequestResponse) :=
  match lreq.url with
  | none => some (false, some r)
  | some lurl =>
    match rreq.url with
    | none => none
    | some rurl => matcherCompare l r lreq rreq lurl rurl

/-- Stage of the default matcher for two present arguments (src/replay.go
lines 46-52): an already-set consumption marker or a missing request on
either side answers false. -/
def matcherSome (l r : RequestResponse) : Option (Bool × Option RequestResponse) :=
  if r.userData then some (false, some r)
  else
    match l.request, r.request with
    | some lreq, some rreq => matcherURLs l r lreq rreq
    | _, _ => some (false, some r)

/-- Default matcher (src/replay.go lines 43-100).  Arguments are the two
possibly-nil pointers.  The result is none when the Go code would crash
with a nil dereference (left URL present, right URL nil, so the first
comparison dereferences rreq.URL), and some (b, right2) when it returns b,
where right2 is the right argument after the call: on a positive match the
matcher sets right.UserData, embedded as userData := true.  The comparison
chain itself is matcherCompare; the guards split across matcherSome and
matcherURLs, following the comment-delimited sections of the source. -/
def matcher : Option RequestResponse → Option RequestResponse →
    Option (Bool × Option RequestResponse)
  | _, none => some (false, none)
  | none, some r => some (false, some r)
  | some l, some r => matcherSome l r

/-- A RequestResponse with every field empty, used as the base of concrete
test vectors. -/
def emptyRR : RequestResponse :=
  { request := none, requestBody := [], requestBodyError := none,
    response := none, responseBody := [], responseBodyError := none,
    error := none, userData := false }

example : matcher none none = some (false, none) := by decide

example : matcher (some emptyRR) (some emptyRR) = some (false, some emptyRR) := by decide

/-- Rebuild of a response header by iterating http.Header.Add over every
key and value (src/replay.go lines 190-195).  With value semantics and the
keys stored as recorded this reproduces the same multimap, so it is the
identity on the canonical association list (the key canonicalisation done
by http.Header.Add is outside the embedded claims). -/
def copyHeaderAdd (h : Header) : Header := h

/-- The per-entry copy the replay loop builds before matching
(src/replay.go lines 183-196).  The Go code unconditionally dereferences
rr.Response to fill the copy, so an entry whose Response pointer is nil
makes the call crash with a nil dereference: that case is none here.  The
request body copy (make plus copy) is the identity on the byte list. -/
def copyEntry (rr : RequestResponse) : Option RequestResponse :=
  match rr.response with
  | none => none
  | some resp => some { rr with response := some { resp with header := copyHeaderAdd resp.header } }

/-- The walk over requestList (src/replay.go lines 181-201): for each entry
build the copy, run the matcher on (source, copy) and stop at the first
positive answer.  Results: none when the Go code crashes, some none when no
entry matched, some (some m) when the copy m (with its consumption marker
set by the matcher) was matched.  The list itself is never written: the
matcher only ever sees the per-entry copy. -/
def scanList (rrSource : RequestResponse) : List RequestResponse → Option (Option RequestResponse)
  | [] => some none
  | rr :: rest =>
    match copyEntry rr with
    | none => none
    | some c =>
      match matcher (some rrSource) (some c) with
      | none => none
      | some (true, some m) => some (some m)
      | some (true, none) => some none
      | some (false, _) => scanList rrSource rest

/-- The incoming-request view built by replay (src/replay.go lines
174-178): the live request, its drained body bytes and the body read
error. -/
def mkSource (req : Request) (body : Bytes) (bodyErr : Option String) : RequestResponse :=
  { request := some req, requestBody := body, requestBodyError := bodyErr,
    response := none, responseBody := [], responseBodyError := none,
    error := none, userData := false }

/-- One ASCII apostrophe, kept out of string literals. -/
def apos : String := ⟨[Char.ofNat 39]⟩

/-- Go string conversion of a byte slice, one character per byte. -/
def bytesToString (l : Bytes) : String := ⟨l.map Char.ofNat⟩

/-- strings.Join with the separator used by the diagnostic. -/
def joinComma (l : List String) : String := String.intercalate ", " l

/-- Rendering of net/url.URL.String() for the fields the embedding keeps.
Percent-escaping of host, path and fragment is embedded as the identity;
the structure (scheme, opaque component, authority with optional user-info,
path, query, fragment) follows the Go standard library function that
src/replay.go line 207 calls. -/
def urlRender (u : URL) : String :=
  let s := if u.scheme ≠ "" then u.scheme ++ ":" else ""
  let s :=
    if u.opaq ≠ "" then s ++ u.opaq
    else
      let auth :=
        if u.scheme ≠ "" ∨ u.host ≠ "" ∨ u.user ≠ none then
          (if u.host ≠ "" ∨ u.path ≠ "" ∨ u.user ≠ none then "//" else "")
            ++ (match u.user with | some us => us ++ "@" | none => "")
            ++ u.host
        else ""
      let pathPart :=
        if u.path ≠ "" ∧ u.host ≠ "" ∧ ¬ u.path.startsWith "/" then "/" ++ u.path else u.path
      s ++ auth ++ pathPart
  let s := if u.rawQuery ≠ "" then s ++ "?" ++ u.rawQuery else s
  if u.fragment ≠ "" then s ++ "#" ++ u.fragment else s

/-- First line of the replay-miss diagnostic, verbatim from src/replay.go
line 204, including the typo in the source. -/
def missHeadline : String := "Matcher didn" ++ apos ++ "t match any execeted queries.\n"

/-- The truncation marker appended to an over-long body preview
(src/replay.go line 232). -/
def truncMarker : String := "... (content truncated by dvr)"

/-- One diagnostic line per header key (src/replay.go lines 212-215 and
218-222). -/
def headerLines (h : Header) : List String :=
  h.map (fun kv => "    " ++ kv.1 ++ ": " ++ joinComma kv.2)

/-- The fixed opening lines of the diagnostic (src/replay.go lines
203-209).  A nil URL never reaches this point: replay crashes on it
first. -/
def missBase (req : Request) : List String :=
  [missHeadline, "Details of the failed request:", "",
   "URL: " ++ (match req.url with | some u => urlRender u | none => ""),
   "Method: " ++ req.method]

/-- The header section of the diagnostic, appended only when the request
has headers (src/replay.go lines 210-216). -/
def missHeaderSec (h : Header) : List String :=
  if h = [] then [] else "\nHeaders:" :: headerLines h

/-- The trailer section of the diagnostic, appended only when the request
has trailers (src/replay.go lines 217-223). -/
def missTrailerSec (h : Header) : List String :=
  if h = [] then [] else "\nTrailers:" :: headerLines h

/-- The body-preview section of the diagnostic, appended only when the
drained body is non-empty: at most 512 bytes, the truncation marker when
the body was longer (src/replay.go lines 224-236). -/
def missBodySec (body : Bytes) : List String :=
  if body = [] then []
  else
    ["Body:",
     bytesToString (body.take (if body.length > 512 then 512 else body.length))
       ++ (if body.length > 512 then truncMarker else "")]

/-- All lines of the replay-miss diagnostic, in the order the source
appends them (src/replay.go lines 203-236). -/
def missLines (req : Request) (body : Bytes) : List String :=
  missBase req ++ missHeaderSec req.header ++ missTrailerSec req.trailer ++ missBodySec body

/-- Outcome of one replay call (src/replay.go lines 151-260).  crash is a
Go runtime panic (nil dereference); miss is the process-fatal
panicIfError(fmt.Errorf(strings.Join(lines, newline))) replay-miss; reply
carries the returned response descriptor, the bodyWriter bytes and error,
and the recorded top-level error. -/
inductive ReplayOutcome where
  | crash
  | miss (msg : String)
  | reply (resp : Option Response) (body : Bytes) (bodyErr : Option String) (err : Option String)
deriving DecidableEq

/-- True exactly on the replay-miss outcome. -/
def ReplayOutcome.isMiss : ReplayOutcome → Bool
  | .miss _ => true
  | _ => false

/-- One replay call (src/replay.go lines 151-260) over the loaded list,
with the live request body already drained to bytes plus read error.  After
the scan: no match panics with the diagnostic (a nil request URL would be
dereferenced while formatting it, hence crash); a matched copy with a nil
response returns the recorded error with no response (lines 240-243);
otherwise the response descriptor is returned together with a bodyWriter
over the recorded body bytes and body error (lines 245-259). -/
def replay (lst : List RequestResponse) (req : Request) (body : Bytes) (bodyErr : Option String) :
    ReplayOutcome :=
  match scanList (mkSource req body bodyErr) lst with
  | none => .crash
  | some none =>
    match req.url with
    | none => .crash
    | some _ => .miss (String.intercalate "\n" (missLines req body))
  | some (some rrMatch) =>
    match rrMatch.response with
    | none => .reply none [] none rrMatch.error
    | some resp => .reply (some resp) rrMatch.responseBody rrMatch.responseBodyError rrMatch.error

/-- A sequence of replay calls against the process state.  replaySetup
fills requestList once; replay itself never writes requestList (the only
assignment the matcher makes lands on the per-call copy, src/replay.go
lines 183-198), so every call of the sequence scans the same list. -/
def replayProcess (lst : List RequestResponse) :
    List (Request × Bytes × Option String) → List ReplayOutcome
  | [] => []
  | c :: cs => replay lst c.1 c.2.1 c.2.2 :: replayProcess lst cs

/-- The four package-level configuration booleans of src/unnamed/part_006:
record, replay, passThrough and DefaultReplay. -/
structure Flags where
  record : Bool
  replay : Bool
  passThrough : Bool
  defaultReplay : Bool
deriving DecidableEq

/-- mode() (src/unnamed/part_006 lines 99-112): the (recording, replaying)
pair under the switch precedence record, replay, passThrough,
DefaultReplay, default. -/
def mode (rec rep pass dflt : Bool) : Bool × Bool :=
  if rec then (true, false)
  else if rep then (false, true)
  else if pass then (false, false)
  else if dflt then (false, true)
  else (false, false)

/-- What the wrapped transport hands back for one call: the possibly-nil
response descriptor, its drained body bytes and body read error, and the
top-level error of the RoundTrip call. -/
structure TransportReply where
  resp : Option Response
  respBody : Bytes
  respBodyErr : Option String
  err : Option String
deriving DecidableEq

/-- The wrapped (real) transport: from the request, its drained body bytes
and body read error to its reply. -/
abbrev TransportFn := Request → Bytes → Option String → TransportReply

/-- CancelRequest (src/unnamed/part_006 lines 211-215): forwards to the
wrapped transport exactly when the type assertion for the cancellation
capability succeeds; the configuration flags are in scope process-wide but
the method never reads them, which the unused parameter records.  The
result is the request forwarded to the wrapped transport, none when
nothing was forwarded. -/
def CancelRequest (flags : Flags) (wrappedHasCancel : Bool) (req : Request) : Option Request :=
  if wrappedHasCancel then some req else none

example : CancelRequest ⟨false, true, false, false⟩ true
    { method := "GET", url := none, header := [], trailer := [] } ≠ none := by decide

/-- Modelled from the spec: the gob serialisation of one exchange (gob.go
with gobQuery, newGobRequest, newGobResponse and RequestResponse() is not
under src/).  Section 4.6 of the spec makes serialisation a faithful codec
and step (f) of section 4.3 makes decoding yield a fresh exchange, so the
serialised form is embedded as the exchange value itself, wrapped so that
encoded and decoded data stay distinct types. -/
structure SerializedExchange where
  payload : RequestResponse
deriving DecidableEq

/-- Modelled from the spec: gob encoding of one exchange (see
SerializedExchange). -/
def gobEncode (rr : RequestResponse) : SerializedExchange := ⟨rr⟩

/-- Modelled from the spec: gob decoding of one serialised exchange; by the
codec law of section 4.6 it inverts gobEncode, and the decoded value is an
isolated copy of the recorded data. -/
def gobDecode (s : SerializedExchange) : RequestResponse := s.payload

/-- What one record call (src/unnamed/part_004 lines 56-159) produces: the
response, body-writer bytes and errors returned to the caller (lines
85-93 and 158), and the serialised exchange appended to the archive
(lines 95-155). -/
structure RecordResult where
  retResp : Option Response
  retBody : Bytes
  retBodyErr : Option String
  retErr : Option String
  archived : SerializedExchange
deriving DecidableEq

/-- One record call (src/unnamed/part_004 lines 56-159): buffer the request
body, invoke the wrapped transport, buffer the response body and substitute
a bodyWriter over the buffered bytes, serialise the exchange, and, when an
Obfuscator is configured, decode the serialised bytes into a fresh
exchange, run the hook on that copy and re-serialise it (lines 100-130).
The caller receives the pre-obfuscation response and error (line 158);
only the archived payload carries the obfuscated values. -/
def record (obf : Option (RequestResponse → RequestResponse)) (t : TransportFn)
    (req : Request) (body : Bytes) (bodyErr : Option String) : RecordResult :=
  let tr := t req body bodyErr
  let q0 : RequestResponse :=
    { request := some req, requestBody := body, requestBodyError := bodyErr,
      response := tr.resp,
      responseBody := match tr.resp with | some _ => tr.respBody | none => [],
      responseBodyError := match tr.resp with | some _ => tr.respBodyErr | none => none,
      error := tr.err, userData := false }
  let buf := gobEncode q0
  let finalPayload :=
    match obf with
    | none => buf
    | some f => gobEncode (f (gobDecode buf))
  { retResp := tr.resp,
    retBody := match tr.resp with | some _ => tr.respBody | none => [],
    retBodyErr := match tr.resp with | some _ => tr.respBodyErr | none => none,
    retErr := tr.err,
    archived := finalPayload }

/-- Result of one RoundTrip call (src/unnamed/part_006 lines 195-206),
tagged by the dispatched path. -/
inductive RTResult where
  | fromRecord (r : RecordResult)
  | fromReplay (r : ReplayOutcome)
  | fromTransport (r : TransportReply)

/-- RoundTrip (src/unnamed/part_006 lines 195-206): resolve mode, then
dispatch to record, replay, or the wrapped transport. -/
def RoundTrip (flags : Flags) (obf : Option (RequestResponse → RequestResponse))
    (t : TransportFn) (lst : List RequestResponse)
    (req : Request) (body : Bytes) (bodyErr : Option String) : RTResult :=
  let m := mode flags.record flags.replay flags.passThrough flags.defaultReplay
  if m.1 then .fromRecord (record obf t req body bodyErr)
  else if m.2 then .fromReplay (replay lst req body bodyErr)
  else .fromTransport (t req body bodyErr)

/-- UTF-8 bytes of an ASCII string. -/
def strBytes (s : String) : Bytes := s.toList.map Char.toNat

/-- Right-pad a byte field with NUL bytes up to n bytes, as tar fields
are. -/
def padTo (n : Nat) (l : Bytes) : Bytes := l ++ List.replicate (n - l.length) 0

/-- Octal digit string of a number, most significant first. -/
def octalStr (n : Nat) : String := String.mk (Nat.toDigits 8 n)

/-- The 12-byte octal size field of a tar header: 11 zero-padded octal
digits and a trailing NUL, as Go archive/tar writes it. -/
def octal12 (n : Nat) : Bytes :=
  List.replicate (11 - (octalStr n).length) 48 ++ strBytes (octalStr n) ++ [0]

/-- One 512-byte tar header block as Go archive/tar lays it out for the
headers src/unnamed/part_004 lines 138-141 creates: the 100-byte NUL-padded
name field first, then mode, uid and gid (24 bytes, embedded as NUL), the
12-byte octal size, and the remaining 376 bytes of the block (mtime,
checksum, magic and the rest), embedded as NUL since no theorem reads past
the size field. -/
def tarHeaderBlock (name : String) (size : Nat) : Bytes :=
  padTo 100 (strBytes name) ++ List.replicate 24 0 ++ octal12 size ++ List.replicate 376 0

/-- NUL padding of a tar payload up to the 512-byte block boundary, written
by the Flush call at src/unnamed/part_004 line 153. -/
def padTo512 (payload : Bytes) : Bytes :=
  payload ++ List.replicate ((512 - payload.length % 512) % 512) 0

/-- The tar records appended by successive record calls (src/unnamed/part_004
lines 132-153): each exchange payload goes out under a header named with the
decimal writerCount, which then increments. -/
def recordedRecords : Nat → List Bytes → Bytes
  | _, [] => []
  | i, p :: ps => tarHeaderBlock (toString i) p.length ++ padTo512 p ++ recordedRecords (i + 1) ps

/-- The archive file a recording process writes, given the serialised
payload of each exchange in order.  recordSetup (src/unnamed/part_004 lines
41-51) opens the file with O_TRUNC and immediately wraps it in
tar.NewWriter: no version word and no compressing layer are written, so the
file is exactly the bare tar stream starting at writerCount 0. -/
def recordedFile (ps : List Bytes) : Bytes := recordedRecords 0 ps

/-- The first four bytes of a file as the big-endian uint32 that
binary.Read yields at src/replay.go line 111, none when the file is
shorter. -/
def readU32BE : Bytes → Option Nat
  | a :: b :: c :: d :: _ => some (((a * 256 + b) * 256 + c) * 256 + d)
  | _ => none

/-- The fatal error replaySetup (src/replay.go lines 104-123) raises while
opening an archive, none when the prefix is accepted: a short read fails
binary.Read, a version other than 1 aborts with the Unknown version
message, and gzip.NewReader rejects a stream that does not start with the
two gzip magic bytes 31 and 139. -/
def replaySetupError (file : Bytes) : Option String :=
  match readU32BE file with
  | none => some "binary read failed"
  | some v =>
    if v ≠ 1 then some ("Unknown version: " ++ toString v)
    else
      match file.drop 4 with
      | m1 :: m2 :: _ => if m1 = 31 ∧ m2 = 139 then none else some "gzip: invalid header"
      | _ => some "gzip: invalid header"

/-- URL of the concrete test vectors. -/
def demoUrl : URL :=
  { scheme := "http", opaq := "", host := "example.com", path := "/a",
    rawQuery := "", fragment := "", user := none }

/-- Live request of the concrete test vectors. -/
def demoReq : Request :=
  { method := "GET", url := some demoUrl, header := [("X-H", ["v"])], trailer := [] }

/-- Recorded response of the concrete test vectors. -/
def demoResp : Response := { status := 201, header := [] }

/-- A recorded exchange carrying a response, matching demoReq with body
byte 98. -/
def demoEntry : RequestResponse :=
  { request := some demoReq, requestBody := [98], requestBodyError := none,
    response := some demoResp, responseBody := [111, 107], responseBodyError := none,
    error := none, userData := false }

/-- A one-entry loaded archive. -/
def demoArchive : List RequestResponse := [demoEntry]

/-- A recorded exchange captured from a transport-level error: the
top-level error is set and the response descriptor is absent.  Its request
is identical to demoReq. -/
def errEntry : RequestResponse :=
  { request := some demoReq, requestBody := [98], requestBodyError := none,
    response := none, responseBody := [], responseBodyError := none,
    error := some "EOF", userData := false }

/-- A transport that never answers, used to instantiate RoundTrip in
closed statements. -/
def idleTransport : TransportFn := fun _ _ _ => ⟨none, [], none, none⟩

/-- Characterisation of the comparison chain: it answers positively,
marking the recorded side, exactly when every compared dimension agrees. -/
lemma matcherCompare_true_iff (l r : RequestResponse) (lreq rreq : Request) (lurl rurl : URL) :
    matcherCompare l r lreq rreq lurl rurl = some (true, some { r with userData := true }) ↔
      (lurl.scheme = rurl.scheme ∧ lurl.opaq = rurl.opaq ∧ lurl.host = rurl.host ∧
       lurl.path = rurl.path ∧ lurl.rawQuery = rurl.rawQuery ∧
       lurl.fragment = rurl.fragment ∧ lurl.user = rurl.user ∧
       l.requestBody = r.requestBody ∧ lreq.header = rreq.header ∧
       lreq.trailer = rreq.trailer) := by
  unfold matcherCompare
  constructor
  · intro h
    by_cases h1 : lurl.scheme ≠ rurl.scheme
    · rw [if_pos h1] at h; simp at h
    rw [if_neg h1] at h
    by_cases h2 : lurl.opaq ≠ rurl.opaq
    · rw [if_pos h2] at h; simp at h
    rw [if_neg h2] at h
    by_cases h3 : lurl.host ≠ rurl.host
    · rw [if_pos h3] at h; simp at h
    rw [if_neg h3] at h
    by_cases h4 : lurl.path ≠ rurl.path
    · rw [if_pos h4] at h; simp at h
    rw [if_neg h4] at h
    by_cases h5 : lurl.rawQuery ≠ rurl.rawQuery
    · rw [if_pos h5] at h; simp at h
    rw [if_neg h5] at h
    by_cases h6 : lurl.fragment ≠ rurl.fragment
    · rw [if_pos h6] at h; simp at h
    rw [if_neg h6] at h
    by_cases h7 : lurl.user ≠ none ∧ rurl.user = none
    · rw [if_pos h7] at h; simp at h
    rw [if_neg h7] at h
    by_cases h8 : lurl.user = none ∧ rurl.user ≠ none
    · rw [if_pos h8] at h; simp at h
    rw [if_neg h8] at h
    by_cases h9 : lurl.user ≠ none ∧ lurl.user ≠ rurl.user
    · rw [if_pos h9] at h; simp at h
    rw [if_neg h9] at h
    by_cases h10 : l.requestBody ≠ r.requestBody
    · rw [if_pos h10] at h; simp at h
    rw [if_neg h10] at h
    by_cases h11 : lreq.header ≠ rreq.header
    · rw [if_pos h11] at h; simp at h
    rw [if_neg h11] at h
    by_cases h12 : lreq.trailer ≠ rreq.trailer
    · rw [if_pos h12] at h; simp at h
    push_neg at h7 h8 h9
    refine ⟨not_not.mp h1, not_not.mp h2, not_not.mp h3, not_not.mp h4, not_not.mp h5,
      not_not.mp h6, ?_, not_not.mp h10, not_not.mp h11, not_not.mp h12⟩
    cases hcase : lurl.user with
    | none => exact (h8 hcase).symm
    | some us => rw [← hcase]; exact h9 (by simp [hcase])
  · rintro ⟨e1, e2, e3, e4, e5, e6, e7, e8, e9, e10⟩
    rw [if_neg (by simp [e1]), if_neg (by simp [e2]), if_neg (by simp [e3]),
      if_neg (by simp [e4]), if_neg (by simp [e5]), if_neg (by simp [e6]),
      if_neg (by simp [e7]), if_neg (by simp [e7]), if_neg (by simp [e7]),
      if_neg (by simp [e8]), if_neg (by simp [e9]), if_neg (by simp [e10])]

/-- Core matcher characterisation shared by the matcher theorems: with both
sides present, the recorded side unconsumed and both URLs present, the
default matcher answers positively, marking the recorded side, exactly when
every compared dimension agrees. -/
lemma matcher_true_iff (l r : RequestResponse) (lreq rreq : Request) (lurl rurl : URL)
    (hl : l.request = some lreq) (hr : r.request = some rreq)
    (hlu : lreq.url = some lurl) (hru : rreq.url = some rurl)
    (hud : r.userData = false) :
    matcher (some l) (some r) = some (true, some { r with userData := true }) ↔
      (lurl.scheme = rurl.scheme ∧ lurl.opaq = rurl.opaq ∧ lurl.host = rurl.host ∧
       lurl.path = rurl.path ∧ lurl.rawQuery = rurl.rawQuery ∧
       lurl.fragment = rurl.fragment ∧ lurl.user = rurl.user ∧
       l.requestBody = r.requestBody ∧ lreq.header = rreq.header ∧
       lreq.trailer = rreq.trailer) := by
  have step : matcher (some l) (some r) = matcherCompare l r lreq rreq lurl rurl := by
    show matcherSome l r = _
    unfold matcherSome
    rw [hud, if_neg (by simp), hl, hr]
    show matcherURLs l r lreq rreq = _
    unfold matcherURLs
    rw [hlu, hru]
  rw [step]
  exact matcherCompare_true_iff l r lreq rreq lurl rurl

/-- C5: the default matcher returns false when either argument or its
request is absent or the recorded entry is already consumed; otherwise,
with both URLs present, it answers positively, marking the recorded entry
it was given, exactly when the two requests agree on scheme, opaque
component, host, path, raw query, fragment and user-info (presence and
rendered form together, as equality of the optional rendered string), the
request bodies are byte-equal, and the header and trailer multimaps are
structurally equal. -/
theorem matcher_default_spec :
    (∀ r : Option RequestResponse, matcher none r = some (false, r))
    ∧ (∀ l : RequestResponse, matcher (some l) none = some (false, none))
    ∧ (∀ l r : RequestResponse, r.userData = true →
        matcher (some l) (some r) = some (false, some r))
    ∧ (∀ l r : RequestResponse, (l.request = none ∨ r.request = none) →
        matcher (some l) (some r) = some (false, some r))
    ∧ (∀ (l r : RequestResponse) (lreq rreq : Request) (lurl rurl : URL),
        l.request = some lreq → r.request = some rreq →
        lreq.url = some lurl → rreq.url = some rurl → r.userData = false →
        (matcher (some l) (some r) = some (true, some { r with userData := true }) ↔
          (lurl.scheme = rurl.scheme ∧ lurl.opaq = rurl.opaq ∧ lurl.host = rurl.host ∧
           lurl.path = rurl.path ∧ lurl.rawQuery = rurl.rawQuery ∧
           lurl.fragment = rurl.fragment ∧ lurl.user = rurl.user ∧
           l.requestBody = r.requestBody ∧ lreq.header = rreq.header ∧
           lreq.trailer = rreq.trailer))) := by
  refine ⟨fun r => by cases r <;> rfl, fun l => rfl, ?_, ?_, ?_⟩
  · intro l r hud
    simp [matcher, matcherSome, hud]
  · intro l r h
    cases hud : r.userData
    · rcases h with h | h <;> cases hl : l.request <;> cases hr : r.request <;>
        simp_all [matcher, matcherSome]
    · simp [matcher, matcherSome, hud]
  · intro l r lreq rreq lurl rurl hl hr hlu hru hud
    exact matcher_true_iff l r lreq rreq lurl rurl hl hr hlu hru hud

/-- C5 witness: a fully concrete positive match through the
characterisation. -/
theorem matcher_default_spec_witness :
    demoEntry.userData = false ∧
    matcher (some (mkSource demoReq [98] none)) (some demoEntry) =
      some (true, some { demoEntry with userData := true }) :=
  ⟨rfl, (matcher_default_spec.2.2.2.2 (mkSource demoReq [98] none) demoEntry demoReq demoReq
    demoUrl demoUrl rfl rfl rfl rfl rfl).mpr (by decide)⟩

/-- C10: the default matcher never inspects the HTTP method: whenever the
compared dimensions all agree, the match is positive even though the two
methods differ, so a recorded exchange can be matched by a live request of
a different method. -/
theorem matcher_ignores_method :
    ∀ (l r : RequestResponse) (lreq rreq : Request) (lurl rurl : URL),
    l.request = some lreq → r.request = some rreq →
    lreq.url = some lurl → rreq.url = some rurl → r.userData = false →
    lreq.method ≠ rreq.method →
    lurl.scheme = rurl.scheme → lurl.opaq = rurl.opaq → lurl.host = rurl.host →
    lurl.path = rurl.path → lurl.rawQuery = rurl.rawQuery →
    lurl.fragment = rurl.fragment → lurl.user = rurl.user →
    l.requestBody = r.requestBody → lreq.header = rreq.header →
    lreq.trailer = rreq.trailer →
    matcher (some l) (some r) = some (true, some { r with userData := true }) := by
  intro l r lreq rreq lurl rurl hl hr hlu hru hud hm e1 e2 e3 e4 e5 e6 e7 e8 e9 e10
  exact (matcher_true_iff l r lreq rreq lurl rurl hl hr hlu hru hud).mpr
    ⟨e1, e2, e3, e4, e5, e6, e7, e8, e9, e10⟩

/-- C6: mode() realises exactly the documented precedence on all sixteen
combinations of the four configuration booleans, with no error case:
explicit-record wins, then explicit-replay, then the explicit pass-through
override, then default-to-replay, and pass-through is the final default. -/
theorem mode_precedence_table :
    mode true true true true = (true, false) ∧
    mode true true true false = (true, false) ∧
    mode true true false true = (true, false) ∧
    mode true true false false = (true, false) ∧
    mode true false true true = (true, false) ∧
    mode true false true false = (true, false) ∧
    mode true false false true = (true, false) ∧
    mode true false false false = (true, false) ∧
    mode false true true true = (false, true) ∧
    mode false true true false = (false, true) ∧
    mode false true false true = (false, true) ∧
    mode false true false false = (false, true) ∧
    mode false false true true = (false, false) ∧
    mode false false true false = (false, false) ∧
    mode false false false true = (false, true) ∧
    mode false false false false = (false, false) := by decide

/-- C9 counterexample: with the flags in Replaying mode and a wrapped
transport that exposes cancellation, CancelRequest still forwards the
request to the wrapped transport, against the claim that it is
unconditionally a no-op in Replaying mode. -/
theorem cancel_replay_forward_counterexample :
    mode false true false false = (false, true) ∧
    CancelRequest ⟨false, true, false, false⟩ true demoReq = some demoReq := by decide

/-- C9 amended: CancelRequest forwards to the wrapped transport exactly
when that transport exposes a cancellation capability, independently of the
mode flags, Replaying mode included. -/
theorem cancel_forward_iff_capability :
    ∀ (f g : Flags) (cap : Bool) (req : Request),
    CancelRequest f cap req = CancelRequest g cap req ∧
    CancelRequest f true req = some req ∧
    CancelRequest f false req = none :=
  fun _ _ _ _ => ⟨rfl, rfl, rfl⟩

/-- C1 counterexample: a one-entry archive, two identical live requests in
sequence.  Both calls are matched and answered from the same recorded
exchange; the second call is not a replay-miss, against the claim that an
(N+1)-th otherwise-identical request must fail once the N recorded
exchanges are consumed. -/
theorem replay_rematch_counterexample :
    replayProcess demoArchive [(demoReq, [98], none), (demoReq, [98], none)] =
      [ReplayOutcome.reply (some demoResp) [111, 107] none none,
       ReplayOutcome.reply (some demoResp) [111, 107] none none] ∧
    (ReplayOutcome.reply (some demoResp) [111, 107] none none).isMiss = false := by decide

/-- C1 amended: the default matcher sets the consumption marker on the
per-call copy that replay builds for each scanned entry, never on the
loaded list, so the list is identical for every call of a sequence: any
number of repetitions of the same live request produce the same outcome,
and once the first repetition matches, no repetition fails with a
replay-miss. -/
theorem replay_stateless_rematch :
    ∀ (lst : List RequestResponse) (req : Request) (body : Bytes) (e : Option String) (n : Nat),
    replayProcess lst (List.replicate n (req, body, e)) =
      List.replicate n (replay lst req body e) ∧
    ((replay lst req body e).isMiss = false →
      ∀ o ∈ replayProcess lst (List.replicate n (req, body, e)), o.isMiss = false) := by
  intro lst req body e n
  have main : ∀ m : Nat, replayProcess lst (List.replicate m (req, body, e)) =
      List.replicate m (replay lst req body e) := by
    intro m
    induction m with
    | zero => rfl
    | succ k ih => simp [List.replicate_succ, replayProcess, ih]
  refine ⟨main n, ?_⟩
  intro hmiss o ho
  rw [main n] at ho
  rcases List.eq_of_mem_replicate ho with rfl
  exact hmiss

/-- C1 witness: the amended statement at the concrete one-entry archive and
two repetitions. -/
theorem replay_stateless_rematch_witness :
    (replay demoArchive demoReq [98] none).isMiss = false ∧
    ∀ o ∈ replayProcess demoArchive (List.replicate 2 (demoReq, [98], none)), o.isMiss = false :=
  ⟨by decide, (replay_stateless_rematch demoArchive demoReq [98] none 2).2 (by decide)⟩

/-- C4: a loaded entry whose top-level error is set and whose response is
absent makes the replay call crash with a nil dereference while the scan
copies the entry, instead of returning the recorded error with no
response. -/
theorem replay_transport_error_entry_crash :
    replay [errEntry] demoReq [98] none = ReplayOutcome.crash := by decide

/-- C2: an archive written by the recorder cannot be loaded back:
replaySetup reads the first four bytes of the bare tar stream (the name
field of record 0) as the version 805306368 and fails hard, so no recorded
exchange is ever replayed from a file this recorder produced. -/
theorem record_replay_version_mismatch :
    replaySetupError (recordedFile [[103, 111]]) = some ("Unknown version: 805306368") := by
  decide

/-- C3: the archive file does not begin with the 4-byte big-endian version
constant 1: its first bytes are the tar name field of the first record, so
recordSetup wrote neither the version header nor a compressing sink in
front of the framed records. -/
theorem record_file_lacks_version_header :
    List.take 4 (recordedFile [[104]]) = [48, 0, 0, 0] ∧
    List.take 4 (recordedFile [[104]]) ≠ [0, 0, 0, 1] := by decide

/-- C7: with an Obfuscator configured, the record call returns to the
caller exactly the response, body bytes, body error and transport error it
would return with no Obfuscator (the pre-obfuscation originals), and the
archived payload is precisely the serialisation of the hook applied to the
decoded copy of the unobfuscated serialised exchange. -/
theorem record_obfuscation_isolation :
    ∀ (f : RequestResponse → RequestResponse) (t : TransportFn)
      (req : Request) (body : Bytes) (e : Option String),
    (record (some f) t req body e).retResp = (record none t req body e).retResp ∧
    (record (some f) t req body e).retBody = (record none t req body e).retBody ∧
    (record (some f) t req body e).retBodyErr = (record none t req body e).retBodyErr ∧
    (record (some f) t req body e).retErr = (record none t req body e).retErr ∧
    (record (some f) t req body e).archived =
      gobEncode (f (gobDecode ((record none t req body e).archived))) :=
  fun _ _ _ _ _ => ⟨rfl, rfl, rfl, rfl, rfl⟩

/-- C10 witness: a live POST matched against a recorded GET of the same
URL, body, headers and trailers. -/
theorem matcher_ignores_method_witness :
    ({ demoReq with method := "POST" } : Request).method ≠ demoReq.method ∧
    matcher (some (mkSource { demoReq with method := "POST" } [98] none)) (some demoEntry) =
      some (true, some { demoEntry with userData := true }) :=
  ⟨by decide,
   matcher_ignores_method (mkSource { demoReq with method := "POST" } [98] none) demoEntry
     { demoReq with method := "POST" } demoReq demoUrl demoUrl
     rfl rfl rfl rfl rfl (by decide) rfl rfl rfl rfl rfl rfl rfl rfl rfl rfl⟩

/-- C8: in Replaying mode, a call whose live request matches no loaded
entry never reaches the wrapped transport (the result is the same for
every transport) and ends in the uniform process-fatal replay-miss whose
diagnostic lines carry the request method, the rendered URL, the header
and trailer sections when those multimaps are non-empty, and, when the
drained body is non-empty, a body preview of at most 512 bytes carrying
the explicit truncation marker exactly when the body was longer. -/
theorem replay_miss_diagnostic :
    ∀ (flags : Flags) (obf : Option (RequestResponse → RequestResponse)) (t : TransportFn)
      (lst : List RequestResponse) (req : Request) (body : Bytes) (e : Option String) (u : URL),
    mode flags.record flags.replay flags.passThrough flags.defaultReplay = (false, true) →
    req.url = some u →
    scanList (mkSource req body e) lst = some none →
    (RoundTrip flags obf t lst req body e =
        RTResult.fromReplay (ReplayOutcome.miss (String.intercalate "\n" (missLines req body))) ∧
    (∀ t2 : TransportFn,
        RoundTrip flags obf t2 lst req body e = RoundTrip flags obf t lst req body e) ∧
    ("Method: " ++ req.method) ∈ missLines req body ∧
    ("URL: " ++ urlRender u) ∈ missLines req body ∧
    (req.header ≠ [] → "\nHeaders:" ∈ missLines req body) ∧
    (req.trailer ≠ [] → "\nTrailers:" ∈ missLines req body) ∧
    (body ≠ [] → ("Body:" ∈ missLines req body ∧
      (bytesToString (List.take 512 body) ++ (if 512 < body.length then truncMarker else ""))
        ∈ missLines req body))) := by
  intro flags obf t lst req body e u hm hu hscan
  have hreplay : replay lst req body e =
      ReplayOutcome.miss (String.intercalate "\n" (missLines req body)) := by
    unfold replay
    rw [hscan, hu]
  have hrt : ∀ t2 : TransportFn, RoundTrip flags obf t2 lst req body e =
      RTResult.fromReplay
        (ReplayOutcome.miss (String.intercalate "\n" (missLines req body))) := by
    intro t2
    simp only [RoundTrip, hm]
    simp [hreplay]
  refine ⟨hrt t, fun t2 => (hrt t2).trans (hrt t).symm, ?_, ?_, ?_, ?_, ?_⟩
  · simp [missLines, missBase]
  · simp [missLines, missBase, hu]
  · intro hh
    simp [missLines, missHeaderSec, hh]
  · intro ht
    simp [missLines, missTrailerSec, ht]
  · intro hb
    have htake : body.take (if body.length > 512 then 512 else body.length) = body.take 512 := by
      by_cases hlen : body.length > 512
      · rw [if_pos hlen]
      · rw [if_neg hlen, List.take_length, List.take_of_length_le (by omega)]
    constructor
    · simp [missLines, missBodySec, hb]
    · simp [missLines, missBodySec, hb, htake]

/-- C8 witness: a concrete Replaying-mode miss over an empty archive. -/
theorem replay_miss_diagnostic_witness :
    mode false true false false = (false, true) ∧
    demoReq.url = some demoUrl ∧
    scanList (mkSource demoReq [104] none) [] = some none ∧
    RoundTrip ⟨false, true, false, false⟩ none idleTransport [] demoReq [104] none =
      RTResult.fromReplay
        (ReplayOutcome.miss (String.intercalate "\n" (missLines demoReq [104]))) :=
  ⟨by decide, rfl, rfl,
   (replay_miss_diagnostic ⟨false, true, false, false⟩ none idleTransport [] demoReq [104]
     none demoUrl (by decide) rfl rfl).1⟩
